import Mathlib

set_option maxRecDepth 100000

/-!
Shallow embedding of `src/source/runner/templates/githubIssueTemplate.ts`
(danger-js report renderer). JavaScript strings are modelled as lists of
characters (`Str`), template-literal interpolation as list append, and
`Array.prototype.join` as `joinSep`. The `Violation` / `DangerResults`
data types and the `isInline` predicate are imported by the source from
`../../dsl/...` modules that are not part of this repository snapshot;
they are modelled from the specification, as marked below.
-/

/-- A JavaScript string, modelled as its sequence of characters. -/
abbrev Str := List Char

/-- Embed a Lean string literal as a `Str`. -/
def str (s : String) : Str := s.toList

/-- JS template interpolation of a number: its decimal rendering. -/
def natStr (n : Nat) : Str := str (Nat.repr n)

/-- Modelled from the spec: the `Violation` record (from `../../dsl/Violation`,
not under `src/`): `message` free text, optional `file` path, optional
1-based `line`, optional `icon` display-glyph override. -/
structure Violation where
  message : Str
  file : Option Str := none
  line : Option Nat := none
  icon : Option Str := none
deriving DecidableEq

/-- Modelled from the spec: the optional `meta` object on a result set,
`\x7bruntimeName, runtimeHref\x7d` identifying the producing tool. -/
structure DangerMeta where
  runtimeName : Str
  runtimeHref : Str
deriving DecidableEq

/-- Modelled from the spec: the `DangerResults` aggregate (from
`../../dsl/DangerResults`, not under `src/`): four ordered violation
lists plus the optional `meta`. -/
structure DangerResults where
  fails : List Violation
  warnings : List Violation
  messages : List Violation
  markdowns : List Violation
  meta : Option DangerMeta := none
deriving DecidableEq

/-- Modelled from the spec: `isInline` (from `../../dsl/Violation`, not under
`src/`): a violation is inline when both `file` and `line` are present. -/
def isInline (violation : Violation) : Bool :=
  violation.file.isSome && violation.line.isSome

/-- JS `violation.icon || emojiString`: the icon when present and non-empty
(a present empty string is falsy in JS), else the fallback. -/
def iconOr (icon : Option Str) (fallback : Str) : Str :=
  match icon with
  | some i => if i = [] then fallback else i
  | none => fallback

/-- JS `Array.prototype.join(sep)` on a list of strings. -/
def joinSep (sep : Str) : List Str → Str
  | [] => []
  | [x] => x
  | x :: y :: xs => x ++ sep ++ joinSep sep (y :: xs)

/-- The character class of the regex `/[`*_~\[]+/g` in `containsMarkdown`.
(The backtick is written via its code point.) -/
def markdownChars : Str := [Char.ofNat 96, '*', '_', '~', '[']

/-- `containsMarkdown(message)`: the regex `/[`*_~\[]+/g` matches iff some
character of the message lies in the class. -/
def containsMarkdown (message : Str) : Bool :=
  message.any (fun c => decide (c ∈ markdownChars))

/-- The `message` value computed inside `htmlForValidation`: the raw message,
prefixed with `**<file>#L<line>** - ` for an inline violation, then wrapped
in blank lines and two-space indentation when it contains markdown. -/
def validationMessage (violation : Violation) : Str :=
  let message :=
    if isInline violation then
      str "**" ++ violation.file.getD [] ++ str "#L" ++ natStr (violation.line.getD 0)
        ++ str "** - " ++ violation.message
    else violation.message
  if containsMarkdown message then str "\n\n  " ++ message ++ str "\n  " else message

/-- `htmlForValidation(defaultEmoji, violation)`: one `<tr>` with a glyph cell
and a message cell. -/
def htmlForValidation (defaultEmoji : Str) (violation : Violation) : Str :=
  str "<tr>\n      <td>" ++ iconOr violation.icon (str ":" ++ defaultEmoji ++ str ":")
    ++ str "</td>\n      <td>" ++ validationMessage violation
    ++ str "</td>\n    </tr>\n  "

/-- `noViolationsOrAllOfThemEmpty(violations)`:
`violations.length === 0 || violations.every(v => !v.message)`. -/
def noViolationsOrAllOfThemEmpty (violations : List Violation) : Bool :=
  violations.isEmpty || violations.all (fun violation => violation.message.isEmpty)

/-- `table(name, defaultEmoji, violations)`: empty string when the guard
holds, else the HTML table with one row per violation. -/
def table (name : Str) (defaultEmoji : Str) (violations : List Violation) : Str :=
  if noViolationsOrAllOfThemEmpty violations then []
  else
    str "\n<table>\n  <thead>\n    <tr>\n      <th width=\"50\"></th>\n      <th width=\"100%\" data-danger-table=\"true\">"
      ++ name
      ++ str "</th>\n    </tr>\n  </thead>\n  <tbody>"
      ++ joinSep (str "\n") (violations.map (fun violation => htmlForValidation defaultEmoji violation))
      ++ str "</tbody>\n</table>\n"

/-- `truncate(msg, count)`: falsy (empty) strings and strings shorter than
`count` pass through; otherwise the first `count - 3` characters followed by
the three-character ellipsis. -/
def truncate (msg : Str) (count : Nat) : Str :=
  if msg = [] then msg
  else if msg.length < count then msg
  else msg.take (count - 3) ++ str "..."

/-- `getSummary(label, violations)`: messages truncated to 20, then the JS
`reduce` with index over them, starting from `"<N> <label>: "` and appending
`" <msg>"` plus a comma for every message but the last. -/
def getSummary (label : Str) (violations : List Violation) : Str :=
  ((violations.map (fun x => truncate x.message 20)).enum).foldl
    (fun acc p =>
      acc ++ (str " " ++ p.2 ++ (if p.1 = violations.length - 1 then [] else str ",")))
    (natStr violations.length ++ str " " ++ label ++ str ": ")

/-- `dangerIDToString(id)`. -/
def dangerIDToString (id : Str) : Str :=
  str "DangerID: danger-id-" ++ id ++ str ";"

/-- `buildSummaryMessage(dangerID, results)`: the hidden summary block. -/
def buildSummaryMessage (dangerID : Str) (results : DangerResults) : Str :=
  str "  " ++ getSummary (str "failure") results.fails
    ++ str "\n  " ++ getSummary (str "warning") results.warnings
    ++ str "\n  " ++ (if results.messages.length > 0
        then natStr results.messages.length ++ str " messages" else [])
    ++ str "\n  " ++ (if results.markdowns.length > 0
        then natStr results.markdowns.length ++ str " markdown notices" else [])
    ++ str "\n  " ++ dangerIDToString dangerID

/-- `fileLineToString(file, line)`. -/
def fileLineToString (file : Str) (line : Nat) : Str :=
  str "  File: " ++ file ++ str ";\n  Line: " ++ natStr line ++ str ";"

/-- `dangerSignature(results)`: `results.meta || \x7bdefault name/href\x7d`
rendered as the generated-by link. -/
def dangerSignature (results : DangerResults) : Str :=
  let meta := results.meta.getD
    { runtimeName := str "dangerJS", runtimeHref := str "https://danger.systems/js" }
  str "Generated by :no_entry_sign: <a href=\"" ++ meta.runtimeHref ++ str "\">"
    ++ meta.runtimeName ++ str "</a>"

/-- `dangerSignaturePostfix(results, commitID)`: the signature, with
`" against <commitID>"` appended when `commitID !== undefined`. -/
def dangerSignaturePostfix (results : DangerResults) (commitID : Option Str) : Str :=
  match commitID with
  | none => dangerSignature results
  | some c => dangerSignature results ++ str " against " ++ c

/-- The exported constant `messageForResultWithIssues`. -/
def messageForResultWithIssues : Str :=
  str "Found some issues. Don't worry, everything is fixable."

/-- `template(dangerID, results, commitID)`: the full issue-comment body
(`renderIssueBody`). -/
def template (dangerID : Str) (results : DangerResults) (commitID : Option Str) : Str :=
  str "\n<!--\n" ++ buildSummaryMessage dangerID results
    ++ str "\n-->\n" ++ table (str "Fails") (str "no_entry_sign") results.fails
    ++ str "\n" ++ table (str "Warnings") (str "warning") results.warnings
    ++ str "\n" ++ table (str "Messages") (str "book") results.messages
    ++ str "\n" ++ joinSep (str "\n\n") (results.markdowns.map (fun v => v.message))
    ++ str "\n<p align=\"right\">\n  " ++ dangerSignaturePostfix results commitID
    ++ str "\n</p>\n"

/-- The `printViolation(defaultEmoji)(violation)` closure inside
`inlineTemplate`: one plain bullet. -/
def printViolation (defaultEmoji : Str) (violation : Violation) : Str :=
  str "- " ++ iconOr violation.icon (str ":" ++ defaultEmoji ++ str ":")
    ++ str " " ++ violation.message

/-- `inlineTemplate(dangerID, results, file, line)`: the compact inline
comment body (`renderInlineBody`). -/
def inlineTemplate (dangerID : Str) (results : DangerResults) (file : Str) (line : Nat) : Str :=
  str "\n<!--\n" ++ buildSummaryMessage dangerID results
    ++ str "\n" ++ fileLineToString file line
    ++ str "\n-->\n" ++ joinSep (str "\n") (results.fails.map (printViolation (str "no_entry_sign")))
    ++ str "\n" ++ joinSep (str "\n") (results.warnings.map (printViolation (str "warning")))
    ++ str "\n" ++ joinSep (str "\n") (results.messages.map (printViolation (str "book")))
    ++ str "\n" ++ joinSep (str "\n\n") (results.markdowns.map (fun v => v.message))
    ++ str "\n  "

/-! ### Concrete inputs used by the claims -/

/-- The result set with a single empty-message failure and nothing else. -/
def emptyFailResults : DangerResults :=
  { fails := [{ message := [] }], warnings := [], messages := [], markdowns := [], meta := none }

/-- The inline violation `{file: "a.ts", line: 3, message: "bad"}`. -/
def inlineBadViolation : Violation :=
  { message := str "bad", file := some (str "a.ts"), line := some 3 }

/-- A general (non-inline) violation with message `"bad"`. -/
def generalBadViolation : Violation := { message := str "bad" }

/-- A general violation whose message contains backticks. -/
def backtickViolation : Violation := { message := str "use `x` instead" }

/-- A list mixing a non-empty-message violation with an empty-message one. -/
def mixedFails : List Violation := [{ message := str "x" }, { message := [] }]

/-! ### Helper lemmas -/

/-- An infix of the left part of an append is an infix of the append. -/
theorem isInfix_append_right {m w : Str} (r : Str) (h : m <:+: w) : m <:+: w ++ r :=
  h.trans (List.prefix_append w r).isInfix

/-- An infix of the right part of an append is an infix of the append. -/
theorem isInfix_append_left {m w : Str} (l : Str) (h : m <:+: w) : m <:+: l ++ w :=
  h.trans (List.suffix_append l w).isInfix

/-- Every member of a joined list is an infix of the join. -/
theorem isInfix_joinSep (sep : Str) (l : List Str) (a : Str) (h : a ∈ l) :
    a <:+: joinSep sep l := by
  induction l with
  | nil => cases h
  | cons x xs ih =>
    cases xs with
    | nil =>
      rcases List.mem_cons.mp h with h1 | h1
      · subst h1; exact List.infix_refl _
      · cases h1
    | cons y ys =>
      rcases List.mem_cons.mp h with h1 | h1
      · subst h1
        exact isInfix_append_right _ (isInfix_append_right _ (List.infix_refl a))
      · exact isInfix_append_left _ (ih h1)

/-- A left fold that only ever appends keeps its starting accumulator as a
prefix of the result. -/
theorem prefix_foldl_append {β : Type} (g : β → Str) (l : List β) (init : Str) :
    init <+: List.foldl (fun acc x => acc ++ g x) init l := by
  induction l generalizing init with
  | nil => exact List.prefix_refl _
  | cons b t ih =>
    simp only [List.foldl_cons]
    exact (List.prefix_append init (g b)).trans (ih (init ++ g b))

/-! ### Claims -/

/-- Claim C1: the HTML table rendered for a violation list is the empty string
if and only if the list is empty or every violation in it has an empty
message. -/
theorem C1_table_empty_iff (name defaultEmoji : Str) (violations : List Violation) :
    table name defaultEmoji violations = [] ↔
      (violations = [] ∨ ∀ v ∈ violations, v.message = []) := by
  have hcond : noViolationsOrAllOfThemEmpty violations = true ↔
      (violations = [] ∨ ∀ v ∈ violations, v.message = []) := by
    simp [noViolationsOrAllOfThemEmpty, List.isEmpty_iff, List.all_eq_true]
  by_cases hb : noViolationsOrAllOfThemEmpty violations = true
  · unfold table
    rw [if_pos hb]
    exact ⟨fun _ => hcond.mp hb, fun _ => rfl⟩
  · unfold table
    rw [if_neg hb]
    constructor
    · intro hc
      simp only [List.append_eq_nil] at hc
      exact absurd hc.1.1.1.1 (by decide)
    · intro hr
      exact absurd (hcond.mpr hr) hb

/-- Claim C2 (counterexample): for `fails = [\x7bmessage: ""\x7d]` the rendered
issue body does NOT contain `"1 failure: ,"` — the reduce puts a comma only
after non-final messages, so the single (empty) message gets none. -/
theorem C2_counterexample :
    ¬ (str "1 failure: ," <:+: template (str "42") emptyFailResults none) := by
  decide

/-- Claim C2 (amended): with `fails = [\x7bmessage: ""\x7d]` the fails table is
omitted, and the hidden summary line is exactly `"1 failure:  "` (the empty
message is still listed after the count, with no trailing comma), which
appears in the rendered issue body. -/
theorem C2_amended_summary :
    table (str "Fails") (str "no_entry_sign") emptyFailResults.fails = [] ∧
    getSummary (str "failure") emptyFailResults.fails = str "1 failure:  " ∧
    str "1 failure:  " <:+: template (str "42") emptyFailResults none := by
  refine ⟨by decide, by decide, by decide⟩

/-- Claim C3 (counterexample): the message cell for the inline violation
`\x7bfile: "a.ts", line: 3, message: "bad"\x7d` does NOT begin with
`"**a.ts#L3** - bad"`: the `*` in the location prefix triggers the markdown
wrap, so the cell begins with a blank line and indentation. -/
theorem C3_counterexample :
    ¬ (str "**a.ts#L3** - bad" <+: validationMessage inlineBadViolation) := by
  decide

/-- Claim C3 (amended): the message cell for that inline violation is the
wrapped string, containing `"**a.ts#L3** - bad"` after the blank-line/indent
wrap; a non-inline violation with message `"bad"` renders as `"bad"` with no
prefix and no wrap. -/
theorem C3_amended_cells :
    validationMessage inlineBadViolation = str "\n\n  **a.ts#L3** - bad\n  " ∧
    str "**a.ts#L3** - bad" <:+: validationMessage inlineBadViolation ∧
    validationMessage generalBadViolation = str "bad" := by
  refine ⟨by decide, by decide, by decide⟩

/-- Claim C4 (counterexample): in a list with one non-empty and one
empty-message violation, the table is rendered and a row IS emitted for the
empty-message violation (its full `<tr>` appears, with an empty message
cell), contradicting the claimed exclusion. -/
theorem C4_counterexample :
    htmlForValidation (str "no_entry_sign") { message := [] }
      <:+: table (str "Fails") (str "no_entry_sign") mixedFails ∧
    str "<td></td>" <:+: table (str "Fails") (str "no_entry_sign") mixedFails := by
  refine ⟨by decide, by decide⟩

/-- Claim C4 (amended): when a violation list renders as a table (not all
messages empty), EVERY violation in it — empty-message ones included —
contributes its row to the table, and the hidden summary's count is the full
list length (it prefixes the summary line). -/
theorem C4_amended_row_per_violation (name defaultEmoji label : Str)
    (violations : List Violation) (v : Violation) (hv : v ∈ violations)
    (hne : noViolationsOrAllOfThemEmpty violations = false) :
    htmlForValidation defaultEmoji v <:+: table name defaultEmoji violations ∧
    natStr violations.length ++ str " " ++ label ++ str ": "
      <+: getSummary label violations := by
  constructor
  · unfold table
    rw [if_neg (by simp [hne])]
    apply isInfix_append_right
    apply isInfix_append_left
    exact isInfix_joinSep _ _ _ (List.mem_map_of_mem _ hv)
  · unfold getSummary
    exact prefix_foldl_append _ _ _

/-- Witness for C4's amended theorem at the mixed list. -/
theorem C4_amended_row_per_violation_witness :
    htmlForValidation (str "no_entry_sign") { message := [] }
      <:+: table (str "Fails") (str "no_entry_sign") mixedFails ∧
    natStr mixedFails.length ++ str " " ++ str "failure" ++ str ": "
      <+: getSummary (str "failure") mixedFails :=
  C4_amended_row_per_violation (str "Fails") (str "no_entry_sign") (str "failure")
    mixedFails { message := [] } (by decide) (by decide)

/-- Claim C5: for a non-empty message, `truncate(msg, 20)` returns the message
unchanged when its length is under 20, and otherwise its first 17 characters
followed by `"..."`; for a message longer than 20 the result has length
exactly 20 and ends with `"..."`. -/
theorem C5_truncate_bounds (msg : Str) (h : msg ≠ []) :
    (msg.length < 20 → truncate msg 20 = msg) ∧
    (20 ≤ msg.length → truncate msg 20 = msg.take 17 ++ str "...") ∧
    (20 < msg.length → (truncate msg 20).length = 20 ∧ str "..." <:+ truncate msg 20) := by
  refine ⟨fun h1 => ?_, fun h2 => ?_, fun h3 => ?_⟩
  · unfold truncate
    rw [if_neg h, if_pos h1]
  · unfold truncate
    rw [if_neg h, if_neg (by omega)]
  · have ht : truncate msg 20 = msg.take 17 ++ str "..." := by
      unfold truncate
      rw [if_neg h, if_neg (by omega)]
    constructor
    · rw [ht, List.length_append, List.length_take]
      have hm : min 17 msg.length = 17 := by omega
      rw [hm]
      rfl
    · rw [ht]
      exact List.suffix_append _ _

/-- Witness for C5 at a 26-character message. -/
theorem C5_truncate_bounds_witness :
    (truncate (str "abcdefghijklmnopqrstuvwxyz") 20).length = 20 ∧
    str "..." <:+ truncate (str "abcdefghijklmnopqrstuvwxyz") 20 :=
  (C5_truncate_bounds (str "abcdefghijklmnopqrstuvwxyz") (by decide)).2.2 (by decide)

/-- Claim C6: `truncate(-, 20)` is idempotent. -/
theorem C6_truncate_idempotent (msg : Str) :
    truncate (truncate msg 20) 20 = truncate msg 20 := by
  by_cases h0 : msg = []
  · subst h0
    rfl
  · by_cases h1 : msg.length < 20
    · have ht : truncate msg 20 = msg := by
        unfold truncate
        rw [if_neg h0, if_pos h1]
      rw [ht, ht]
    · have ht : truncate msg 20 = msg.take 17 ++ str "..." := by
        unfold truncate
        rw [if_neg h0, if_neg h1]
      have hlen17 : (msg.take 17).length = 17 := by
        rw [List.length_take]
        omega
      have hlen : (msg.take 17 ++ str "...").length = 20 := by
        rw [List.length_append, hlen17]
        rfl
      have hne : msg.take 17 ++ str "..." ≠ [] := by
        intro hc
        have hz := congrArg List.length hc
        rw [hlen] at hz
        simp at hz
      rw [ht]
      unfold truncate
      rw [if_neg hne, if_neg (by rw [hlen]; omega)]
      congr 1
      have h17 : (20 : Nat) - 3 = 17 := by norm_num
      rw [h17, List.take_append_of_le_length (by rw [hlen17]), List.take_take]
      norm_num

/-- Claim C7: both rendered bodies contain the literal marker
`"DangerID: danger-id-<buildID>;"` for every build identifier, result set,
optional commit reference, and inline location. -/
theorem C7_dangerID_marker (dangerID : Str) (results : DangerResults)
    (commitID : Option Str) (file : Str) (line : Nat) :
    str "DangerID: danger-id-" ++ dangerID ++ str ";"
      <:+: template dangerID results commitID ∧
    str "DangerID: danger-id-" ++ dangerID ++ str ";"
      <:+: inlineTemplate dangerID results file line := by
  have hsum : str "DangerID: danger-id-" ++ dangerID ++ str ";"
      <:+: buildSummaryMessage dangerID results := by
    unfold buildSummaryMessage dangerIDToString
    exact (List.suffix_append _ _).isInfix
  constructor
  · unfold template
    iterate 11 apply isInfix_append_right
    exact isInfix_append_left _ hsum
  · unfold inlineTemplate
    iterate 11 apply isInfix_append_right
    exact isInfix_append_left _ hsum

/-- Claim C8: the signature line is
`Generated by :no_entry_sign: <a href="<runtimeHref>"><runtimeName></a>`,
defaulting to `dangerJS` / `https://danger.systems/js` when `meta` is absent;
with no commit reference the postfix is the bare signature (ending in
`</a>`), and a supplied commit reference appends ` against <commitRef>`. -/
theorem C8_signature (results : DangerResults) :
    (results.meta = none →
      dangerSignature results =
        str "Generated by :no_entry_sign: <a href=\"https://danger.systems/js\">dangerJS</a>") ∧
    (∀ m, results.meta = some m →
      dangerSignature results =
        str "Generated by :no_entry_sign: <a href=\"" ++ m.runtimeHref ++ str "\">"
          ++ m.runtimeName ++ str "</a>") ∧
    ( dangerSignaturePostfix results none = dangerSignature results ∧
      str "</a>" <:+ dangerSignaturePostfix results none) ∧
    (∀ c, dangerSignaturePostfix results (some c) =
      dangerSignature results ++ str " against " ++ c) := by
  refine ⟨?_, ?_, ⟨rfl, ?_⟩, fun c => rfl⟩
  · intro hm
    simp only [dangerSignature, hm, Option.getD_none]
    decide
  · intro m hm
    simp only [dangerSignature, hm, Option.getD_some]
  · show str "</a>" <:+ dangerSignature results
    simp only [dangerSignature]
    exact List.suffix_append _ _

/-- Witness for C8 at the meta-less result set and commit `abc123`. -/
theorem C8_signature_witness :
    dangerSignature emptyFailResults =
      str "Generated by :no_entry_sign: <a href=\"https://danger.systems/js\">dangerJS</a>" ∧
    dangerSignaturePostfix emptyFailResults (some (str "abc123")) =
      dangerSignature emptyFailResults ++ str " against " ++ str "abc123" :=
  ⟨(C8_signature emptyFailResults).1 rfl,
   (C8_signature emptyFailResults).2.2.2 (str "abc123")⟩

/-- Claim C9: a non-inline violation whose message contains a
markdown-significant character (backtick, `*`, `_`, `~`, `[`) gets its table
message cell wrapped in blank lines and two-space indentation, while its
inline bullet is `- <glyph> <message>` with the message unwrapped. -/
theorem C9_markdown_wrap (defaultEmoji : Str) (violation : Violation)
    (hinline : isInline violation = false)
    (hmd : ∃ c ∈ violation.message, c ∈ markdownChars) :
    validationMessage violation = str "\n\n  " ++ violation.message ++ str "\n  " ∧
    printViolation defaultEmoji violation =
      str "- " ++ iconOr violation.icon (str ":" ++ defaultEmoji ++ str ":")
        ++ str " " ++ violation.message := by
  have hc : containsMarkdown violation.message = true := by
    rcases hmd with ⟨c, hcm, hcs⟩
    unfold containsMarkdown
    rw [List.any_eq_true]
    exact ⟨c, hcm, decide_eq_true hcs⟩
  refine ⟨?_, rfl⟩
  simp only [validationMessage, hinline, Bool.false_eq_true, if_false, hc, if_true]

/-- Witness for C9 at the backtick message. -/
theorem C9_markdown_wrap_witness :
    validationMessage backtickViolation
      = str "\n\n  " ++ backtickViolation.message ++ str "\n  " ∧
    printViolation (str "warning") backtickViolation =
      str "- " ++ iconOr backtickViolation.icon (str ":" ++ str "warning" ++ str ":")
        ++ str " " ++ backtickViolation.message :=
  C9_markdown_wrap (str "warning") backtickViolation (by decide) (by decide)

/-- Claim C10: for every inline violation the location prefix contains `*`,
so the markdown check always fires and the table message cell is always the
wrapped `\n\n  **<file>#L<line>** - <message>\n  `. -/
theorem C10_inline_always_wrapped (violation : Violation) (f : Str) (l : Nat)
    (hf : violation.file = some f) (hl : violation.line = some l) :
    validationMessage violation =
      str "\n\n  " ++ (str "**" ++ f ++ str "#L" ++ natStr l ++ str "** - "
        ++ violation.message) ++ str "\n  " := by
  have hinl : isInline violation = true := by
    simp [isInline, hf, hl]
  have hmd : containsMarkdown (str "**" ++ f ++ str "#L" ++ natStr l ++ str "** - "
      ++ violation.message) = true := by
    unfold containsMarkdown
    rw [List.any_eq_true]
    refine ⟨'*', ?_, by decide⟩
    apply List.mem_append_left
    apply List.mem_append_left
    apply List.mem_append_left
    apply List.mem_append_left
    apply List.mem_append_left
    decide
  simp only [validationMessage, hinl, if_true, hf, hl, Option.getD_some, hmd]

/-- Witness for C10 at the inline violation `a.ts#L3`. -/
theorem C10_inline_always_wrapped_witness :
    validationMessage inlineBadViolation =
      str "\n\n  " ++ (str "**" ++ str "a.ts" ++ str "#L" ++ natStr 3 ++ str "** - "
        ++ inlineBadViolation.message) ++ str "\n  " :=
  C10_inline_always_wrapped inlineBadViolation (str "a.ts") 3 rfl rfl
